import Mathlib

/-!
# kms-utils: element selection, dynamic connection, bin wrapping, bootstrap

A shallow embedding of `src/core/kms-utils.c`.  Pointers that may be `NULL`
are `Option`s, the GStreamer collaborator (registry, pads, signals) is modelled
by the data it exposes to this file, and stateful code passes its state
explicitly.
-/

namespace Kms

/-! ## Pad templates and `check_template_names` -/

/-- The framework's `GstPadDirection` enumeration. -/
inductive GstPadDirection where
  | GST_PAD_UNKNOWN
  | GST_PAD_SRC
  | GST_PAD_SINK
deriving DecidableEq, Repr

/-- The framework's `GstPadPresence` enumeration. -/
inductive GstPadPresence where
  | GST_PAD_ALWAYS
  | GST_PAD_SOMETIMES
  | GST_PAD_REQUEST
deriving DecidableEq, Repr

/-- Capability descriptor (`GstCaps`), kept as the list of its structures. -/
abbrev GstCaps := List String

/-- A `GstPadTemplate`; `name_template` is a `gchar *` and may be `NULL`. -/
structure GstPadTemplate where
  name_template : Option String
  direction : GstPadDirection
  presence : GstPadPresence
  caps : GstCaps
deriving DecidableEq, Repr

/-- The glib function `g_strcmp0`: a `NULL`-tolerant `strcmp`, where `NULL`
sorts before every string. Only the sign of the result is kept. -/
def g_strcmp0 (str1 str2 : Option String) : Int :=
  match str1, str2 with
  | none, none => 0
  | none, some _ => -1
  | some _, none => 1
  | some a, some b => if a = b then 0 else if a < b then -1 else 1

/-- One of the two `switch` statements of `check_template_names`, applied to
the running value of `ret`. `none` is the `default:` branch, which leaves the
function with `return FALSE`. -/
def check_template_switch (ret : Bool) (tmp : GstPadTemplate) : Option Bool :=
  match tmp.direction with
  | .GST_PAD_SINK => some (ret || g_strcmp0 tmp.name_template (some "sink") == 0)
  | .GST_PAD_SRC => some (ret || g_strcmp0 tmp.name_template (some "src") == 0)
  | .GST_PAD_UNKNOWN => none

/-- The function `check_template_names` (kms-utils.c, lines 111-138). -/
def check_template_names (tmp1 tmp2 : GstPadTemplate) : Bool :=
  let ret := false
  match check_template_switch ret tmp1 with
  | none => false
  | some ret =>
    match check_template_switch ret tmp2 with
    | none => false
    | some ret => ret

/-! ## Factories and `kms_utils_get_element_for_caps` -/

/-- A pad handle (`GstPad *`). -/
abbrev GstPad := Nat

/-- An element instance: its name (`GST_ELEMENT_NAME`) and its static pads by
name, which is what `gst_element_get_static_pad` searches. -/
structure GstElement where
  name : String
  pads : List (String × GstPad)
deriving DecidableEq, Repr

/-- A `GstStaticPadTemplate` as declared by a factory. -/
structure GstStaticPadTemplate where
  name_template : Option String
  direction : GstPadDirection
  presence : GstPadPresence
  static_caps : GstCaps
deriving DecidableEq, Repr

/-- The framework's `gst_static_pad_template_get`: the pad template built from
a static one keeps its name, direction, presence and caps. -/
def gst_static_pad_template_get (t : GstStaticPadTemplate) : GstPadTemplate :=
  { name_template := t.name_template, direction := t.direction,
    presence := t.presence, caps := t.static_caps }

/-- A registered `GstElementFactory`: name, rank, class string and the static
pad templates it declares. -/
structure GstElementFactory where
  name : String
  rank : Nat
  klass : String
  static_pad_templates : List GstStaticPadTemplate
deriving DecidableEq, Repr

/-- A `GList` of factories: each cell's `data` pointer may be `NULL`. -/
abbrev FactoryList := List (Option GstElementFactory)

/-- The registry side of the framework, as used by
`kms_utils_get_element_for_caps`. -/
structure GstRegistry where
  gst_element_factory_list_get_elements : Nat → Nat → FactoryList
  gst_element_factory_list_filter :
    FactoryList → GstCaps → GstPadDirection → Bool → FactoryList
  gst_element_factory_create : GstElementFactory → Option String → Option GstElement

/-- The function `gst_element_factory_get_static_pad_templates`. -/
def gst_element_factory_get_static_pad_templates (f : GstElementFactory) :
    List GstStaticPadTemplate :=
  f.static_pad_templates

/-- The `while (l != NULL)` loop of `kms_utils_get_element_for_caps` (lines
151-175). The result is the value of `l` when the loop is left: the cell at
which `break` was taken together with its tail, or `[]` for `NULL`. -/
def search_loop : FactoryList → FactoryList
  | [] => []
  | data :: next =>
    match data with
    | none => search_loop next
    | some f =>
      let pads := gst_element_factory_get_static_pad_templates f
      if pads.length = 2 then
        match pads with
        | p1 :: p2 :: _ =>
          let tmp1 := gst_static_pad_template_get p1
          let tmp2 := gst_static_pad_template_get p2
          let finish := check_template_names tmp1 tmp2
          if finish then data :: next else search_loop next
        | _ => search_loop next
      else search_loop next

/-- What a call of `kms_utils_get_element_for_caps` produces: the returned
element pointer and the calls of `gst_element_factory_create` it made. -/
structure SelectResult where
  elem : Option GstElement
  created : List (GstElementFactory × Option String)
deriving DecidableEq, Repr

/-- The function `kms_utils_get_element_for_caps` (lines 140-190). The two
`g_print` diagnostics and the freeing of the lists are not modelled. -/
def kms_utils_get_element_for_caps (reg : GstRegistry) (type rank : Nat)
    (caps : GstCaps) (direction : GstPadDirection) (subsetonly : Bool)
    (name : Option String) : SelectResult :=
  let list := reg.gst_element_factory_list_get_elements type rank
  let filter := reg.gst_element_factory_list_filter list caps direction subsetonly
  let l := search_loop filter
  match l with
  | [] => { elem := none, created := [] }
  | none :: _ => { elem := none, created := [] }
  | some f :: _ =>
    { elem := reg.gst_element_factory_create f name, created := [(f, name)] }

/-- The two tests an entry of the filtered list has to pass to be taken: a
non-`NULL` factory declaring exactly two static pad templates on which
`check_template_names` holds. -/
def acceptable (e : Option GstElementFactory) : Bool :=
  match e with
  | none => false
  | some f =>
    match f.static_pad_templates with
    | [p1, p2] =>
      check_template_names (gst_static_pad_template_get p1) (gst_static_pad_template_get p2)
    | _ => false

/-! ## Pads, links, signals and `kms_dynamic_connection` -/

/-- The pad signals this file connects handlers to. -/
inductive PadSignal where
  | linked
  | unlinked
deriving DecidableEq, Repr

/-- One signal connection made with `g_object_connect` on a pad: the pad, the
signal and the user data. The handler is not stored, since this file connects
`signal::linked` to `linked` and `signal::unlinked` to `unlinked` only. -/
structure SignalConnection where
  pad : GstPad
  signal : PadSignal
  data : GstElement
deriving DecidableEq, Repr

/-- The part of the media graph this file reads and writes: the owner and the
direction of each pad, the framework's caps compatibility between a src pad
and a sink pad, the pad links as pairs (src pad, sink pad), oldest first, and
the signal connections, oldest first. -/
structure GstGraph where
  parent : GstPad → Option GstElement
  direction : GstPad → GstPadDirection
  compatible : GstPad → GstPad → Bool
  links : List (GstPad × GstPad)
  connections : List SignalConnection

/-- What the framework does when it emits a signal on a pad, as seen from the
functions that cause an emission: the graph, the emitting pad, the signal and
the peer pad passed along; `none` when the emission does not come back. -/
abbrev Emitter := GstGraph → GstPad → PadSignal → GstPad → Option GstGraph

/-- The function `gst_pad_get_parent_element`. -/
def gst_pad_get_parent_element (g : GstGraph) (pad : GstPad) : Option GstElement :=
  g.parent pad

/-- The function `gst_element_get_static_pad`: the pad of that name, or `NULL`;
also `NULL` for a `NULL` element. -/
def gst_element_get_static_pad (elem : Option GstElement) (name : String) : Option GstPad :=
  match elem with
  | none => none
  | some e => (e.pads.find? (fun p => p.1 = name)).map (fun p => p.2)

/-- The function `gst_pad_get_peer` (`GST_PAD_PEER`): the other end of the link
the pad is part of; `NULL` for an unlinked or a `NULL` pad. -/
def gst_pad_get_peer (g : GstGraph) (pad : Option GstPad) : Option GstPad :=
  match pad with
  | none => none
  | some p =>
    (g.links.find? (fun l => l.1 = p ∨ l.2 = p)).map (fun l => if l.1 = p then l.2 else l.1)

/-- The function `gst_pad_is_linked`; `FALSE` for a `NULL` pad. -/
def gst_pad_is_linked (g : GstGraph) (pad : Option GstPad) : Bool :=
  (gst_pad_get_peer g pad).isSome

/-- The function `gst_pad_link (srcpad, sinkpad)`: refused unless `srcpad` is a
src pad, `sinkpad` a sink pad, both are unlinked and their caps are
compatible; otherwise the link is made and the framework emits `linked` on
`srcpad` and then on `sinkpad`, each with the other pad as argument. -/
def gst_pad_link (emit : Emitter) (g : GstGraph) (srcpad sinkpad : GstPad) : Option GstGraph :=
  if g.direction srcpad = .GST_PAD_SRC ∧ g.direction sinkpad = .GST_PAD_SINK ∧
      gst_pad_is_linked g (some srcpad) = false ∧ gst_pad_is_linked g (some sinkpad) = false ∧
      g.compatible srcpad sinkpad = true then
    let g := { g with links := g.links ++ [(srcpad, sinkpad)] }
    (emit g srcpad .linked sinkpad).bind (fun g => emit g sinkpad .linked srcpad)
  else some g

/-- The function `gst_pad_unlink (srcpad, sinkpad)`: refused unless `srcpad` is
a src pad, `sinkpad` a sink pad and the two are linked to each other;
otherwise the link is removed and the framework emits `unlinked` on `srcpad`
and then on `sinkpad`, each with the other pad as argument. -/
def gst_pad_unlink (emit : Emitter) (g : GstGraph) (srcpad : GstPad) (sinkpad : Option GstPad) :
    Option GstGraph :=
  match sinkpad with
  | none => some g
  | some s =>
    if g.direction srcpad = .GST_PAD_SRC ∧ g.direction s = .GST_PAD_SINK ∧
        (srcpad, s) ∈ g.links then
      let g := { g with links := g.links.filter (fun l => l ≠ (srcpad, s)) }
      (emit g srcpad .unlinked s).bind (fun g => emit g s .unlinked srcpad)
    else some g

/-- The function `gst_element_get_compatible_pad` for a src pad: the first pad
of `dest` that is an unlinked sink pad with compatible caps. -/
def gst_element_get_compatible_pad (g : GstGraph) (dest : GstElement) (srcpad : GstPad) :
    Option GstPad :=
  (dest.pads.find? (fun q => g.direction q.2 = .GST_PAD_SINK ∧
    gst_pad_is_linked g (some q.2) = false ∧ g.compatible srcpad q.2 = true)).map (fun q => q.2)

/-- The pads `gst_element_link (src, dest)` links: going through the pads of
`src` in order, the first unlinked src pad for which `dest` has a compatible
pad, together with that pad. -/
def find_link_pads (g : GstGraph) (src dest : GstElement) : Option (GstPad × GstPad) :=
  src.pads.findSome? (fun p =>
    if g.direction p.2 = .GST_PAD_SRC ∧ gst_pad_is_linked g (some p.2) = false then
      (gst_element_get_compatible_pad g dest p.2).map (fun q => (p.2, q))
    else none)

/-- The function `gst_element_link (src, dest)`: links the pads found by
`find_link_pads` with `gst_pad_link`; nothing is done when there are none, or
for a `NULL` destination. -/
def gst_element_link (emit : Emitter) (g : GstGraph) (src : GstElement)
    (dest : Option GstElement) : Option GstGraph :=
  match dest with
  | none => some g
  | some d =>
    match find_link_pads g src d with
    | none => some g
    | some (srcpad, sinkpad) => gst_pad_link emit g srcpad sinkpad

/-- The handler `linked` (lines 72-79). The closing `g_object_unref (dest)` only
releases a reference, which the graph does not count. -/
def linked (emit : Emitter) (g : GstGraph) (pad : GstPad) (_peer : GstPad) (orig : GstElement) :
    Option GstGraph :=
  let dest := gst_pad_get_parent_element g pad
  gst_element_link emit g orig dest

/-- The handler `unlinked` (lines 81-97). The `g_object_unref` calls only
release references, which the graph does not count. -/
def unlinked (emit : Emitter) (g : GstGraph) (pad : GstPad) (_orig : GstElement) :
    Option GstGraph :=
  let dest := gst_pad_get_parent_element g pad
  let sink := gst_element_get_static_pad dest "sink"
  if gst_pad_is_linked g sink then
    let peer := gst_pad_get_peer g sink
    match peer with
    | some peer => gst_pad_unlink emit g peer sink
    | none => some g
  else some g

/-- The function `g_object_connect` for one signal; nothing is connected on a
`NULL` object. -/
def g_object_connect (g : GstGraph) (pad : Option GstPad) (signal : PadSignal)
    (data : GstElement) : GstGraph :=
  match pad with
  | none => g
  | some p =>
    { g with connections := g.connections ++ [{ pad := p, signal := signal, data := data }] }

/-- The function `kms_dynamic_connection` (lines 99-109). The closing
`g_object_unref (pad)` only releases a reference, which the graph does not
count. -/
def kms_dynamic_connection (g : GstGraph) (orig dest : GstElement) (pad_name : String) :
    GstGraph :=
  let pad := gst_element_get_static_pad (some dest) pad_name
  let g := g_object_connect g pad .linked orig
  let g := g_object_connect g pad .unlinked orig
  g

/-- Running the handler of one connection for a signal emitted by `pad` with
argument `peer`. -/
def run_callback (emit : Emitter) (g : GstGraph) (pad peer : GstPad) (c : SignalConnection) :
    Option GstGraph :=
  match c.signal with
  | .linked => linked emit g pad peer c.data
  | .unlinked => unlinked emit g pad c.data

/-- Running the handlers of a list of connections one after the other. -/
def run_connections (emit : Emitter) (g : GstGraph) (pad peer : GstPad) :
    List SignalConnection → Option GstGraph
  | [] => some g
  | c :: cs => (run_callback emit g pad peer c).bind (fun g => run_connections emit g pad peer cs)

/-- The framework emitting `signal` on `pad` with argument `peer`: every
connection made on that pad for that signal runs, in connection order. A
handler may link or unlink pads and so cause further emissions; the first
argument bounds how deeply emissions may nest, and `none` means that bound was
reached. -/
def g_signal_emit : Nat → Emitter
  | 0 => fun _ _ _ _ => none
  | fuel + 1 => fun g pad signal peer =>
    run_connections (g_signal_emit fuel) g pad peer
      (g.connections.filter (fun c => c.pad = pad ∧ c.signal = signal))

/-- The framework's invariant on pad links: a link goes from a src pad to a
sink pad, and a pad is part of at most one link. -/
def well_linked (g : GstGraph) : Prop :=
  (∀ l ∈ g.links, g.direction l.1 = .GST_PAD_SRC ∧ g.direction l.2 = .GST_PAD_SINK) ∧
  (∀ l ∈ g.links, ∀ m ∈ g.links, (l.1 = m.1 ∨ l.2 = m.2) → l = m)

instance (g : GstGraph) : Decidable (well_linked g) := by
  unfold well_linked
  infer_instance

/-- The pads of the elements bound as origin by some connection. -/
def origin_pads (g : GstGraph) : List GstPad :=
  g.connections.flatMap (fun c => c.data.pads.map (fun p => p.2))

/-- The number of origin pads that are still unlinked: each link made by a
`linked` handler uses one up, which bounds how deeply `linked` emissions can
nest. -/
def link_measure (g : GstGraph) : Nat :=
  ((origin_pads g).filter (fun p => gst_pad_is_linked g (some p) = false)).length

/-- Everything of the graph but its pad links is the same in `g` and `h`. -/
def same_frame (g h : GstGraph) : Prop :=
  h.parent = g.parent ∧ h.direction = g.direction ∧ h.compatible = g.compatible ∧
  h.connections = g.connections

/-- What an emission of `unlinked` does to the graph at most: it returns, it
removes pad links and changes nothing else. -/
def unlink_outcome (g : GstGraph) (r : Option GstGraph) : Prop :=
  ∃ h, r = some h ∧ same_frame g h ∧ h.links.Sublist g.links

/-- What an emission of `linked` does to the graph at most: it returns, it adds
pad links after the existing ones and changes nothing else. -/
def link_outcome (g : GstGraph) (r : Option GstGraph) : Prop :=
  ∃ h, r = some h ∧ same_frame g h ∧ ∃ extra, h.links = g.links ++ extra

/-! ## `kms_generate_bin_with_caps` -/

/-- A ghost pad of a bin: its name, the template it was made from and the pad
it is targeted at (`none` while it has no target). -/
structure GstGhostPad where
  name : String
  template : GstPadTemplate
  target : Option GstPad
deriving DecidableEq, Repr

/-- A bin: name, children and pads. -/
structure GstBin where
  name : String
  children : List GstElement
  pads : List GstGhostPad
deriving DecidableEq, Repr

/-- The function `gst_bin_new`. -/
def gst_bin_new (name : String) : GstBin :=
  { name := name, children := [], pads := [] }

/-- The function `gst_bin_add`. -/
def gst_bin_add (bin : GstBin) (elem : GstElement) : GstBin :=
  { bin with children := bin.children ++ [elem] }

/-- The function `gst_caps_copy`. -/
def gst_caps_copy (caps : GstCaps) : GstCaps := caps

/-- The function `gst_pad_template_new`. -/
def gst_pad_template_new (name : String) (direction : GstPadDirection)
    (presence : GstPadPresence) (caps : GstCaps) : GstPadTemplate :=
  { name_template := some name, direction := direction, presence := presence, caps := caps }

/-- The function `gst_ghost_pad_new_no_target_from_template`. -/
def gst_ghost_pad_new_no_target_from_template (name : String) (templ : GstPadTemplate) :
    GstGhostPad :=
  { name := name, template := templ, target := none }

/-- The function `gst_element_add_pad` on a bin. -/
def gst_element_add_pad (bin : GstBin) (pad : GstGhostPad) : GstBin :=
  { bin with pads := bin.pads ++ [pad] }

/-- The function `gst_ghost_pad_set_target` on the ghost pad of `bin` called
`gpad`; a `NULL` target leaves the ghost pad without target. -/
def gst_ghost_pad_set_target (bin : GstBin) (gpad : String) (newtarget : Option GstPad) :
    GstBin :=
  { bin with pads := bin.pads.map (fun p => if p.name = gpad then { p with target := newtarget } else p) }

/-- The function `g_object_unref`, as far as this file can observe it: on a
`NULL` pointer GLib logs a critical and returns; the reference counts of real
objects are not modelled. The critical is appended to the log. -/
def g_object_unref {α : Type} (log : List String) (object : Option α) : List String :=
  match object with
  | none => log ++ ["g_object_unref: assertion G_IS_OBJECT (object) failed"]
  | some _ => log

/-- What a call of `kms_generate_bin_with_caps` produces: the returned pointer,
`none` standing for `NULL`, and the GLib criticals logged on the way. -/
structure BinResult where
  bin : Option GstBin
  criticals : List String
deriving DecidableEq, Repr

/-- The function `kms_generate_bin_with_caps` (lines 192-224). -/
def kms_generate_bin_with_caps (elem : GstElement) (sink_caps src_caps : GstCaps) :
    BinResult :=
  let bin := gst_bin_new elem.name
  let bin := gst_bin_add bin elem
  let src := gst_element_get_static_pad (some elem) "src"
  let sink := gst_element_get_static_pad (some elem) "sink"
  let sink_temp := gst_pad_template_new "sink" .GST_PAD_SINK .GST_PAD_ALWAYS
    (gst_caps_copy sink_caps)
  let src_temp := gst_pad_template_new "src" .GST_PAD_SRC .GST_PAD_ALWAYS
    (gst_caps_copy src_caps)
  let gsink := gst_ghost_pad_new_no_target_from_template "sink" sink_temp
  let gsrc := gst_ghost_pad_new_no_target_from_template "src" src_temp
  let bin := gst_element_add_pad bin gsink
  let bin := gst_element_add_pad bin gsrc
  let bin := gst_ghost_pad_set_target bin "src" src
  let bin := gst_ghost_pad_set_target bin "sink" sink
  let log := g_object_unref [] src
  let log := g_object_unref log sink
  let log := g_object_unref log (some sink_temp)
  let log := g_object_unref log (some src_temp)
  { bin := some bin, criticals := log }

/-! ## Bootstrap: `kms_init` and `kms_get_pipeline` -/

/-- The framework's element states. -/
inductive GstState where
  | GST_STATE_NULL
  | GST_STATE_READY
  | GST_STATE_PAUSED
  | GST_STATE_PLAYING
deriving DecidableEq, Repr

/-- A pipeline made by `gst_pipeline_new`: its state, the watches added to its
bus and the handlers connected to the bus's `message` signal. -/
structure GstPipeline where
  state : GstState
  bus_watches : List String
  bus_handlers : List String
deriving DecidableEq, Repr

/-- The process as seen by `kms_init`: the three file-level statics (`pipe`,
`mutex`, `init`), every pipeline created so far (a pipeline pointer is its
position here), the threads created so far by the function they run, and the
numbers of `g_type_init` and `gst_init` calls. -/
structure KmsProcess where
  pipe : Option Nat
  mutex : Bool
  init : Bool
  pipelines : List GstPipeline
  threads : List String
  g_type_init_calls : Nat
  gst_init_calls : Nat
deriving DecidableEq, Repr

/-- The process before any call: `pipe = NULL`, the mutex free, `init = FALSE`. -/
def KmsProcess.start : KmsProcess :=
  { pipe := none, mutex := false, init := false, pipelines := [], threads := [],
    g_type_init_calls := 0, gst_init_calls := 0 }

/-- The function `gst_pipeline_new`: a fresh pipeline in the `NULL` state; the
returned pointer is its position among the pipelines created so far. -/
def gst_pipeline_new (p : KmsProcess) : KmsProcess × Nat :=
  ({ p with pipelines := p.pipelines ++
      [{ state := .GST_STATE_NULL, bus_watches := [], bus_handlers := [] }] },
   p.pipelines.length)

/-- The function `gst_element_set_state` on a pipeline. -/
def gst_element_set_state (p : KmsProcess) (pipe : Nat) (state : GstState) : KmsProcess :=
  { p with pipelines := List.modify (fun q => { q with state := state }) pipe p.pipelines }

/-- The function `gst_bus_add_watch` on the bus of a pipeline. -/
def gst_bus_add_watch (p : KmsProcess) (bus : Nat) (func : String) : KmsProcess :=
  let watch := fun (q : GstPipeline) => { q with bus_watches := q.bus_watches ++ [func] }
  { p with pipelines := List.modify watch bus p.pipelines }

/-- The call `g_object_connect (bus, "signal::message", handler, NULL, NULL)`. -/
def g_object_connect_message (p : KmsProcess) (bus : Nat) (handler : String) : KmsProcess :=
  let connect := fun (q : GstPipeline) => { q with bus_handlers := q.bus_handlers ++ [handler] }
  { p with pipelines := List.modify connect bus p.pipelines }

/-- The function `g_thread_create`: one more thread, running `func`. -/
def g_thread_create (p : KmsProcess) (func : String) : KmsProcess :=
  { p with threads := p.threads ++ [func] }

/-- The body of `if (!init)` in `kms_init` (lines 49-62). -/
def kms_init_body (p : KmsProcess) : KmsProcess :=
  let p := { p with g_type_init_calls := p.g_type_init_calls + 1 }
  let p := { p with gst_init_calls := p.gst_init_calls + 1 }
  let (p, fresh) := gst_pipeline_new p
  let p := { p with pipe := some fresh }
  let p := gst_element_set_state p fresh .GST_STATE_PLAYING
  let bus := fresh
  let p := gst_bus_add_watch p bus "gst_bus_async_signal_func"
  let p := g_object_connect_message p bus "bus_msg"
  let p := g_thread_create p "gstreamer_thread"
  { p with init := true }

/-- The function `kms_init` (lines 45-65), run to completion by one thread.
`none` means the call never returns: `G_LOCK` on a mutex that is already
held. The argument vector is only handed on to `gst_init` and is not kept. -/
def kms_init (p : KmsProcess) : Option KmsProcess :=
  if p.mutex then none
  else
    let p := { p with mutex := true }
    let p := if !p.init then kms_init_body p else p
    some { p with mutex := false }

/-- The function `kms_get_pipeline` (lines 67-70). -/
def kms_get_pipeline (p : KmsProcess) : Option Nat :=
  p.pipe

/-- Calling `kms_init` `n` times in a row. -/
def kms_init_times : Nat → KmsProcess → Option KmsProcess
  | 0, p => some p
  | n + 1, p => (kms_init p).bind (kms_init_times n)

/-! ## Example data -/

/-- A static pad template with the given name and direction. -/
def static_template (name : String) (direction : GstPadDirection) : GstStaticPadTemplate :=
  { name_template := some name, direction := direction, presence := .GST_PAD_ALWAYS,
    static_caps := ["video/x-raw"] }

/-- A pad template with the given name and direction. -/
def pad_template (name : String) (direction : GstPadDirection) : GstPadTemplate :=
  gst_static_pad_template_get (static_template name direction)

/-- Both templates canonical: exactly two static pad templates, the first an
input template named "sink", the second an output template named "src". -/
def has_sink_src_templates (f : GstElementFactory) : Bool :=
  match f.static_pad_templates with
  | [t1, t2] =>
    decide (t1.direction = .GST_PAD_SINK) && decide (t1.name_template = some "sink") &&
    decide (t2.direction = .GST_PAD_SRC) && decide (t2.name_template = some "src")
  | _ => false

/-- A factory of the given name and rank declaring the given templates. -/
def example_factory (name : String) (rank : Nat) (templates : List GstStaticPadTemplate) :
    GstElementFactory :=
  { name := name, rank := rank, klass := "Filter/Converter", static_pad_templates := templates }

/-- A registry whose filtered list is `l` for every query, and whose factories
create an element carrying the instance name and a sink and a src pad. -/
def example_registry (l : FactoryList) : GstRegistry :=
  { gst_element_factory_list_get_elements := fun _ _ => l,
    gst_element_factory_list_filter := fun list _ _ _ => list,
    gst_element_factory_create := fun f name =>
      some { name := name.getD f.name, pads := [("sink", 1), ("src", 2)] } }

/-- The rank-2 factory of the scenario, templates "sink" and "src". -/
def factory_rank2 : GstElementFactory :=
  example_factory "conv2" 2 [static_template "sink" .GST_PAD_SINK, static_template "src" .GST_PAD_SRC]

/-- The rank-1 factory of the scenario, templates "sink" and "src". -/
def factory_rank1 : GstElementFactory :=
  example_factory "conv1" 1 [static_template "sink" .GST_PAD_SINK, static_template "src" .GST_PAD_SRC]

/-- A factory with one template, canonically named. -/
def factory_one_pad : GstElementFactory :=
  example_factory "source" 3 [static_template "src" .GST_PAD_SRC]

/-- A factory with three templates, canonically named. -/
def factory_three_pads : GstElementFactory :=
  example_factory "tee" 3 [static_template "sink" .GST_PAD_SINK,
    static_template "src" .GST_PAD_SRC, static_template "src2" .GST_PAD_SRC]

/-- A factory with two templates, neither canonically named. -/
def factory_odd_names : GstElementFactory :=
  example_factory "odd" 3 [static_template "foo" .GST_PAD_SINK, static_template "other" .GST_PAD_SRC]

/-- The origin element of the example graph. -/
def elem_orig : GstElement := { name := "orig", pads := [("src", 10)] }

/-- The destination element of the example graph. -/
def elem_dest : GstElement := { name := "dest", pads := [("sink", 20), ("src", 21)] }

/-- The element downstream of the destination in the example graph. -/
def elem_down : GstElement := { name := "down", pads := [("sink", 30)] }

/-- An element upstream of the destination in the example graph. -/
def elem_up : GstElement := { name := "up", pads := [("sink", 41), ("src", 40)] }

/-- An element upstream of `up` in the example graph. -/
def elem_far : GstElement := { name := "far", pads := [("src", 50)] }

/-- An element with a src pad only. -/
def elem_source : GstElement := { name := "source", pads := [("src", 60)] }

/-- The owners of the pads of the example graph. -/
def example_parent (p : GstPad) : Option GstElement :=
  if p = 10 then some elem_orig
  else if p = 20 ∨ p = 21 then some elem_dest
  else if p = 30 then some elem_down
  else if p = 40 ∨ p = 41 then some elem_up
  else if p = 50 then some elem_far
  else if p = 60 then some elem_source
  else none

/-- The directions of the pads of the example graph. -/
def example_direction (p : GstPad) : GstPadDirection :=
  if p = 10 ∨ p = 21 ∨ p = 40 ∨ p = 50 ∨ p = 60 then .GST_PAD_SRC
  else if p = 20 ∨ p = 30 ∨ p = 41 then .GST_PAD_SINK
  else .GST_PAD_UNKNOWN

/-- The example graph with the given pad links and no signal connection; all
caps are compatible. -/
def example_graph (links : List (GstPad × GstPad)) : GstGraph :=
  { parent := example_parent,
    direction := example_direction,
    compatible := fun _ _ => true,
    links := links,
    connections := [] }

/-- The example graph right after the src pad of `dest` (pad 21) has been
linked to the sink pad of `down` (pad 30), with `orig` bound to that src pad. -/
def graph_after_link : GstGraph :=
  kms_dynamic_connection (example_graph [(21, 30)]) elem_orig elem_dest "src"

/-- The same graph when the src pad of `orig` (pad 10) is already linked to the
sink pad of `up` (pad 41), so that `orig` has no unlinked src pad left. -/
def graph_after_link_busy : GstGraph :=
  kms_dynamic_connection (example_graph [(10, 41), (21, 30)]) elem_orig elem_dest "src"

/-- The example graph right after the src pad of `dest` (pad 21) has been
unlinked, with `up` bound to that pad and linked into `dest` (pads 40 and 20),
and a link from `far` into `up` (pads 50 and 41). -/
def graph_after_unlink : GstGraph :=
  kms_dynamic_connection (example_graph [(50, 41), (40, 20)]) elem_up elem_dest "src"

/-- The chained graph: as `graph_after_unlink`, with `far` bound before to the
src pad of `up` (pad 40). -/
def graph_chained : GstGraph :=
  kms_dynamic_connection
    (kms_dynamic_connection (example_graph [(50, 41), (40, 20)]) elem_far elem_up "src")
    elem_up elem_dest "src"

/-! ## Lemmas on `check_template_names` -/

theorem g_strcmp0_eq_zero (s t : Option String) : g_strcmp0 s t = 0 ↔ s = t := by
  cases s <;> cases t <;> simp [g_strcmp0]
  split_ifs <;> simp_all

theorem g_strcmp0_beq (s t : Option String) : (g_strcmp0 s t == 0) = decide (s = t) := by
  by_cases h : s = t
  · simp [h, (g_strcmp0_eq_zero t t).2 rfl]
  · have : g_strcmp0 s t ≠ 0 := fun h0 => h ((g_strcmp0_eq_zero s t).1 h0)
    simp [h, this]

theorem check_template_switch_sink (ret : Bool) (tmp : GstPadTemplate)
    (h : tmp.direction = .GST_PAD_SINK) :
    check_template_switch ret tmp = some (ret || decide (tmp.name_template = some "sink")) := by
  simp [check_template_switch, h, g_strcmp0_beq]

theorem check_template_switch_src (ret : Bool) (tmp : GstPadTemplate)
    (h : tmp.direction = .GST_PAD_SRC) :
    check_template_switch ret tmp = some (ret || decide (tmp.name_template = some "src")) := by
  simp [check_template_switch, h, g_strcmp0_beq]

theorem check_template_switch_unknown (ret : Bool) (tmp : GstPadTemplate)
    (h : tmp.direction = .GST_PAD_UNKNOWN) :
    check_template_switch ret tmp = none := by
  simp [check_template_switch, h]

/-- Exact characterisation of `check_template_names`: both directions are
recognized and one of the two templates is a sink template named "sink" or a
src template named "src". -/
theorem check_template_names_iff (tmp1 tmp2 : GstPadTemplate) :
    check_template_names tmp1 tmp2 = true ↔
      tmp1.direction ≠ .GST_PAD_UNKNOWN ∧ tmp2.direction ≠ .GST_PAD_UNKNOWN ∧
      ((tmp1.direction = .GST_PAD_SINK ∧ tmp1.name_template = some "sink") ∨
       (tmp1.direction = .GST_PAD_SRC ∧ tmp1.name_template = some "src") ∨
       (tmp2.direction = .GST_PAD_SINK ∧ tmp2.name_template = some "sink") ∨
       (tmp2.direction = .GST_PAD_SRC ∧ tmp2.name_template = some "src")) := by
  unfold check_template_names
  rcases h1 : tmp1.direction <;> rcases h2 : tmp2.direction <;>
    simp [check_template_switch_sink, check_template_switch_src,
      check_template_switch_unknown, h1, h2]


/-! ## Claims on `check_template_names` -/

/-- C2 (as stated, refuted): for T1 = output "src", T2 = input "other", both of
recognized direction, the code returns true although T1 is not an input
template named "sink" and T2 is not an output template named "src"; so the
predicate is not equivalent to that condition. -/
theorem check_template_names_not_asymmetric :
    check_template_names (pad_template "src" .GST_PAD_SRC)
      (pad_template "other" .GST_PAD_SINK) = true ∧
    ¬ (((pad_template "src" .GST_PAD_SRC).direction = .GST_PAD_SINK ∧
        (pad_template "src" .GST_PAD_SRC).name_template = some "sink") ∨
       ((pad_template "other" .GST_PAD_SINK).direction = .GST_PAD_SRC ∧
        (pad_template "other" .GST_PAD_SINK).name_template = some "src")) ∧
    ¬ (∀ tmp1 tmp2 : GstPadTemplate,
        tmp1.direction = .GST_PAD_SINK ∨ tmp1.direction = .GST_PAD_SRC →
        tmp2.direction = .GST_PAD_SINK ∨ tmp2.direction = .GST_PAD_SRC →
        (check_template_names tmp1 tmp2 = true ↔
          (tmp1.direction = .GST_PAD_SINK ∧ tmp1.name_template = some "sink") ∨
          (tmp2.direction = .GST_PAD_SRC ∧ tmp2.name_template = some "src"))) := by
  have h2 : check_template_names (pad_template "src" .GST_PAD_SRC)
      (pad_template "other" .GST_PAD_SINK) = true := by
    rw [check_template_names_iff]
    simp [pad_template, static_template, gst_static_pad_template_get]
  have h3 : ¬ (((pad_template "src" .GST_PAD_SRC).direction = .GST_PAD_SINK ∧
        (pad_template "src" .GST_PAD_SRC).name_template = some "sink") ∨
       ((pad_template "other" .GST_PAD_SINK).direction = .GST_PAD_SRC ∧
        (pad_template "other" .GST_PAD_SINK).name_template = some "src")) := by
    rintro (h | h)
    · exact absurd h.1 (by decide)
    · exact absurd h.1 (by decide)
  refine ⟨h2, h3, fun h => h3 ((h _ _ (Or.inr rfl) (Or.inl rfl)).1 h2)⟩

/-- C2 (amended): on templates with recognized directions the predicate is
true exactly when one of the two templates, in either position, is an input
template named "sink" or an output template named "src". -/
theorem check_template_names_symmetric (tmp1 tmp2 : GstPadTemplate)
    (h1 : tmp1.direction = .GST_PAD_SINK ∨ tmp1.direction = .GST_PAD_SRC)
    (h2 : tmp2.direction = .GST_PAD_SINK ∨ tmp2.direction = .GST_PAD_SRC) :
    check_template_names tmp1 tmp2 = true ↔
      (tmp1.direction = .GST_PAD_SINK ∧ tmp1.name_template = some "sink") ∨
      (tmp1.direction = .GST_PAD_SRC ∧ tmp1.name_template = some "src") ∨
      (tmp2.direction = .GST_PAD_SINK ∧ tmp2.name_template = some "sink") ∨
      (tmp2.direction = .GST_PAD_SRC ∧ tmp2.name_template = some "src") := by
  rw [check_template_names_iff]
  have e1 : tmp1.direction ≠ .GST_PAD_UNKNOWN := by
    rcases h1 with h | h <;> simp [h]
  have e2 : tmp2.direction ≠ .GST_PAD_UNKNOWN := by
    rcases h2 with h | h <;> simp [h]
  simp [e1, e2]

/-- Witness for C2 (amended), at T1 = output "src", T2 = input "other". -/
theorem check_template_names_symmetric_witness :
    check_template_names (pad_template "src" .GST_PAD_SRC)
      (pad_template "other" .GST_PAD_SINK) = true :=
  (check_template_names_symmetric (pad_template "src" .GST_PAD_SRC)
    (pad_template "other" .GST_PAD_SINK) (Or.inr rfl) (Or.inl rfl)).2
    (Or.inr (Or.inl ⟨rfl, rfl⟩))

/-- C3: on templates with recognized directions the predicate is true whenever
T1 is an input template named "sink", true whenever T2 is an output template
named "src", and false for T1 = input "foo", T2 = output "other". -/
theorem check_template_names_or_semantics (tmp1 tmp2 : GstPadTemplate)
    (h1 : tmp1.direction = .GST_PAD_SINK ∨ tmp1.direction = .GST_PAD_SRC)
    (h2 : tmp2.direction = .GST_PAD_SINK ∨ tmp2.direction = .GST_PAD_SRC) :
    (tmp1.direction = .GST_PAD_SINK ∧ tmp1.name_template = some "sink" →
      check_template_names tmp1 tmp2 = true) ∧
    (tmp2.direction = .GST_PAD_SRC ∧ tmp2.name_template = some "src" →
      check_template_names tmp1 tmp2 = true) ∧
    (tmp1.direction = .GST_PAD_SINK ∧ tmp1.name_template = some "foo" ∧
      tmp2.direction = .GST_PAD_SRC ∧ tmp2.name_template = some "other" →
      check_template_names tmp1 tmp2 = false) := by
  have e1 : tmp1.direction ≠ .GST_PAD_UNKNOWN := by
    rcases h1 with h | h <;> simp [h]
  have e2 : tmp2.direction ≠ .GST_PAD_UNKNOWN := by
    rcases h2 with h | h <;> simp [h]
  refine ⟨?_, ?_, ?_⟩
  · intro h
    rw [check_template_names_iff]
    exact ⟨e1, e2, Or.inl h⟩
  · intro h
    rw [check_template_names_iff]
    exact ⟨e1, e2, Or.inr (Or.inr (Or.inr h))⟩
  · rintro ⟨d1, n1, d2, n2⟩
    rw [← Bool.not_eq_true, check_template_names_iff]
    simp [d1, n1, d2, n2]

/-- Witness for C3: the three rows of the truth table, each obtained at the
templates of that row. -/
theorem check_template_names_or_semantics_witness :
    check_template_names (pad_template "sink" .GST_PAD_SINK)
      (pad_template "other" .GST_PAD_SRC) = true ∧
    check_template_names (pad_template "foo" .GST_PAD_SINK)
      (pad_template "src" .GST_PAD_SRC) = true ∧
    check_template_names (pad_template "foo" .GST_PAD_SINK)
      (pad_template "other" .GST_PAD_SRC) = false :=
  ⟨(check_template_names_or_semantics (pad_template "sink" .GST_PAD_SINK)
      (pad_template "other" .GST_PAD_SRC) (Or.inl rfl) (Or.inr rfl)).1 ⟨rfl, rfl⟩,
   (check_template_names_or_semantics (pad_template "foo" .GST_PAD_SINK)
      (pad_template "src" .GST_PAD_SRC) (Or.inl rfl) (Or.inr rfl)).2.1 ⟨rfl, rfl⟩,
   (check_template_names_or_semantics (pad_template "foo" .GST_PAD_SINK)
      (pad_template "other" .GST_PAD_SRC) (Or.inl rfl) (Or.inr rfl)).2.2
      ⟨rfl, rfl, rfl, rfl⟩⟩

/-- C4: when T1 or T2 has a direction that is neither input nor output, the
predicate is false, whatever the names and the other template are. -/
theorem check_template_names_unknown_direction (tmp1 tmp2 : GstPadTemplate)
    (h : (tmp1.direction ≠ .GST_PAD_SINK ∧ tmp1.direction ≠ .GST_PAD_SRC) ∨
         (tmp2.direction ≠ .GST_PAD_SINK ∧ tmp2.direction ≠ .GST_PAD_SRC)) :
    check_template_names tmp1 tmp2 = false := by
  rw [← Bool.not_eq_true, check_template_names_iff]
  rintro ⟨e1, e2, -⟩
  rcases h with ⟨a, b⟩ | ⟨a, b⟩
  · rcases h1 : tmp1.direction <;> simp_all
  · rcases h2 : tmp2.direction <;> simp_all

/-- Witness for C4, at T1 = input "sink" (canonically named), T2 of unknown
direction named "src". -/
theorem check_template_names_unknown_direction_witness :
    check_template_names (pad_template "sink" .GST_PAD_SINK)
      (pad_template "src" .GST_PAD_UNKNOWN) = false :=
  check_template_names_unknown_direction (pad_template "sink" .GST_PAD_SINK)
    (pad_template "src" .GST_PAD_UNKNOWN) (Or.inr ⟨by decide, by decide⟩)

theorem acceptable_some_iff (f : GstElementFactory) :
    acceptable (some f) = true ↔
      ∃ p1 p2, f.static_pad_templates = [p1, p2] ∧
        check_template_names (gst_static_pad_template_get p1)
          (gst_static_pad_template_get p2) = true := by
  obtain ⟨n, r, k, tpl⟩ := f
  rcases tpl with _ | ⟨a, _ | ⟨b, _ | ⟨c, r⟩⟩⟩ <;> simp [acceptable]
  constructor
  · intro h
    exact ⟨a, b, ⟨rfl, rfl⟩, h⟩
  · rintro ⟨p1, p2, ⟨rfl, rfl⟩, h⟩
    exact h

theorem acceptable_length (f : GstElementFactory) (h : acceptable (some f) = true) :
    f.static_pad_templates.length = 2 := by
  obtain ⟨p1, p2, e, -⟩ := (acceptable_some_iff f).1 h
  simp [e]

theorem not_acceptable_of_length (f : GstElementFactory)
    (h : f.static_pad_templates.length ≠ 2) : acceptable (some f) = false := by
  rw [← Bool.not_eq_true]
  exact fun h2 => h (acceptable_length f h2)

/-- One turn of the loop: stop at an acceptable cell, otherwise go on. -/
theorem search_loop_cons (e : Option GstElementFactory) (next : FactoryList) :
    search_loop (e :: next) = if acceptable e = true then e :: next else search_loop next := by
  cases e with
  | none => simp [search_loop, acceptable]
  | some f =>
    obtain ⟨n, r, k, tpl⟩ := f
    rcases tpl with _ | ⟨a, _ | ⟨b, _ | ⟨c, r⟩⟩⟩ <;>
      simp [search_loop, acceptable, gst_element_factory_get_static_pad_templates]

theorem search_loop_skip (pre rest : FactoryList) (h : ∀ e ∈ pre, acceptable e = false) :
    search_loop (pre ++ rest) = search_loop rest := by
  induction pre with
  | nil => rfl
  | cons e pre ih =>
    have he : acceptable e = false := h e (List.mem_cons_self _ _)
    rw [List.cons_append, search_loop_cons, he]
    simpa using ih (fun x hx => h x (List.mem_cons_of_mem _ hx))

theorem search_loop_first (pre post : FactoryList) (f : GstElementFactory)
    (h : ∀ e ∈ pre, acceptable e = false) (hf : acceptable (some f) = true) :
    search_loop (pre ++ some f :: post) = some f :: post := by
  rw [search_loop_skip pre _ h, search_loop_cons, hf]
  simp

theorem search_loop_none (l : FactoryList) (h : ∀ e ∈ l, acceptable e = false) :
    search_loop l = [] := by
  have := search_loop_skip l [] h
  simpa [search_loop] using this

/-- The list splits at its first acceptable entry, or has none. -/
theorem first_acceptable_split (l : FactoryList) :
    (∀ e ∈ l, acceptable e = false) ∨
    ∃ pre f post, l = pre ++ some f :: post ∧ acceptable (some f) = true ∧
      ∀ e ∈ pre, acceptable e = false := by
  induction l with
  | nil => left; simp
  | cons e l ih =>
    by_cases he : acceptable e = true
    · right
      cases e with
      | none => simp [acceptable] at he
      | some f => exact ⟨[], f, l, rfl, he, by simp⟩
    · have he2 : acceptable e = false := by simpa using he
      rcases ih with h | ⟨pre, f, post, e1, e2, e3⟩
      · left
        intro x hx
        rcases List.mem_cons.1 hx with rfl | hx
        · exact he2
        · exact h x hx
      · right
        refine ⟨e :: pre, f, post, by simp [e1], e2, ?_⟩
        intro x hx
        rcases List.mem_cons.1 hx with rfl | hx
        · exact he2
        · exact e3 x hx

theorem select_of_first (reg : GstRegistry) (type rank : Nat) (caps : GstCaps)
    (direction : GstPadDirection) (subsetonly : Bool) (name : Option String)
    (pre post : FactoryList) (f : GstElementFactory)
    (hl : reg.gst_element_factory_list_filter
      (reg.gst_element_factory_list_get_elements type rank) caps direction subsetonly =
        pre ++ some f :: post)
    (h : ∀ e ∈ pre, acceptable e = false) (hf : acceptable (some f) = true) :
    kms_utils_get_element_for_caps reg type rank caps direction subsetonly name =
      { elem := reg.gst_element_factory_create f name, created := [(f, name)] } := by
  simp only [kms_utils_get_element_for_caps, hl, search_loop_first pre post f h hf]

theorem select_of_none (reg : GstRegistry) (type rank : Nat) (caps : GstCaps)
    (direction : GstPadDirection) (subsetonly : Bool) (name : Option String)
    (h : ∀ e ∈ reg.gst_element_factory_list_filter
      (reg.gst_element_factory_list_get_elements type rank) caps direction subsetonly,
        acceptable e = false) :
    kms_utils_get_element_for_caps reg type rank caps direction subsetonly name =
      { elem := none, created := [] } := by
  simp only [kms_utils_get_element_for_caps, search_loop_none _ h]

theorem has_sink_src_templates_acceptable (f : GstElementFactory)
    (h : has_sink_src_templates f = true) : acceptable (some f) = true := by
  obtain ⟨n, r, k, tpl⟩ := f
  rcases tpl with _ | ⟨a, _ | ⟨b, _ | ⟨c, r⟩⟩⟩ <;> simp [has_sink_src_templates] at h
  rw [acceptable_some_iff]
  refine ⟨a, b, rfl, ?_⟩
  rw [check_template_names_iff]
  simp [gst_static_pad_template_get, h]

theorem acceptable_odd_names : acceptable (some factory_odd_names) = false := by
  rw [← Bool.not_eq_true, acceptable_some_iff]
  simp [factory_odd_names, example_factory, check_template_names_iff, static_template,
    gst_static_pad_template_get]

/-! ## Claims on `kms_utils_get_element_for_caps` -/

/-- C1: when `kms_utils_get_element_for_caps` selects a factory, it is the first
entry of the filtered list that declares exactly two pad templates on which
`check_template_names` holds, every earlier entry failing one of the two tests;
and for a filtered list of a rank-2 and a rank-1 factory, both with templates
sink/src, the entry that comes first is the one selected, in either order. -/
theorem first_match_selection (reg : GstRegistry) (type rank : Nat) (caps : GstCaps)
    (direction : GstPadDirection) (subsetonly : Bool) (name : Option String) :
    (∀ f, (f, name) ∈
        (kms_utils_get_element_for_caps reg type rank caps direction subsetonly name).created →
      ∃ pre post,
        reg.gst_element_factory_list_filter
          (reg.gst_element_factory_list_get_elements type rank) caps direction subsetonly =
            pre ++ some f :: post ∧
        f.static_pad_templates.length = 2 ∧ acceptable (some f) = true ∧
        ∀ e ∈ pre, acceptable e = false) ∧
    (∀ f2 f1 : GstElementFactory, f2.rank = 2 → f1.rank = 1 →
      has_sink_src_templates f2 = true → has_sink_src_templates f1 = true →
      (reg.gst_element_factory_list_filter
          (reg.gst_element_factory_list_get_elements type rank) caps direction subsetonly =
            [some f2, some f1] →
        kms_utils_get_element_for_caps reg type rank caps direction subsetonly name =
          { elem := reg.gst_element_factory_create f2 name, created := [(f2, name)] }) ∧
      (reg.gst_element_factory_list_filter
          (reg.gst_element_factory_list_get_elements type rank) caps direction subsetonly =
            [some f1, some f2] →
        kms_utils_get_element_for_caps reg type rank caps direction subsetonly name =
          { elem := reg.gst_element_factory_create f1 name, created := [(f1, name)] })) := by
  constructor
  · intro f hf
    rcases first_acceptable_split (reg.gst_element_factory_list_filter
      (reg.gst_element_factory_list_get_elements type rank) caps direction subsetonly) with
      h | ⟨pre, f', post, e1, e2, e3⟩
    · rw [select_of_none reg type rank caps direction subsetonly name h] at hf
      simp at hf
    · rw [select_of_first reg type rank caps direction subsetonly name pre post f' e1 e3 e2] at hf
      simp only [List.mem_singleton, Prod.mk.injEq, and_true] at hf
      subst hf
      exact ⟨pre, post, e1, acceptable_length f e2, e2, e3⟩
  · intro f2 f1 _ _ h2 h1
    constructor
    · intro hl
      exact select_of_first reg type rank caps direction subsetonly name [] [some f1] f2
        (by simpa using hl) (by simp) (has_sink_src_templates_acceptable f2 h2)
    · intro hl
      exact select_of_first reg type rank caps direction subsetonly name [] [some f2] f1
        (by simpa using hl) (by simp) (has_sink_src_templates_acceptable f1 h1)

/-- Witness for C1: the rank-2 factory is selected from [rank 2, rank 1], the
rank-1 factory from [rank 1, rank 2], and in a longer list the selected factory
is preceded only by entries that fail the tests. -/
theorem first_match_selection_witness :
    kms_utils_get_element_for_caps (example_registry [some factory_rank2, some factory_rank1])
        0 0 [] .GST_PAD_SINK false (some "conv") =
      { elem := some { name := "conv", pads := [("sink", 1), ("src", 2)] },
        created := [(factory_rank2, some "conv")] } ∧
    kms_utils_get_element_for_caps (example_registry [some factory_rank1, some factory_rank2])
        0 0 [] .GST_PAD_SINK false (some "conv") =
      { elem := some { name := "conv", pads := [("sink", 1), ("src", 2)] },
        created := [(factory_rank1, some "conv")] } ∧
    ∃ pre post,
      [some factory_one_pad, none, some factory_rank1, some factory_rank2] =
        pre ++ some factory_rank1 :: post ∧
      factory_rank1.static_pad_templates.length = 2 ∧
      acceptable (some factory_rank1) = true ∧ ∀ e ∈ pre, acceptable e = false :=
  ⟨((first_match_selection (example_registry [some factory_rank2, some factory_rank1])
      0 0 [] .GST_PAD_SINK false (some "conv")).2 factory_rank2 factory_rank1
      rfl rfl (by decide) (by decide)).1 rfl,
   ((first_match_selection (example_registry [some factory_rank1, some factory_rank2])
      0 0 [] .GST_PAD_SINK false (some "conv")).2 factory_rank2 factory_rank1
      rfl rfl (by decide) (by decide)).2 rfl,
   (first_match_selection
      (example_registry [some factory_one_pad, none, some factory_rank1, some factory_rank2])
      0 0 [] .GST_PAD_SINK false (some "conv")).1 factory_rank1 (by decide)⟩

/-- C5: the factory selected by `kms_utils_get_element_for_caps` declares
exactly two static pad templates, so a factory declaring 0, 1, 3 or more is
never selected; and entries of the filtered list that do not declare exactly
two templates, standing before an acceptable factory, do not keep the search
from selecting that factory. -/
theorem exactly_two_ports_filter (reg : GstRegistry) (type rank : Nat) (caps : GstCaps)
    (direction : GstPadDirection) (subsetonly : Bool) (name : Option String) :
    (∀ f inst, (f, inst) ∈
        (kms_utils_get_element_for_caps reg type rank caps direction subsetonly name).created →
      f.static_pad_templates.length = 2) ∧
    (∀ f inst, f.static_pad_templates.length ≠ 2 → (f, inst) ∉
        (kms_utils_get_element_for_caps reg type rank caps direction subsetonly name).created) ∧
    (∀ pre f post,
      reg.gst_element_factory_list_filter
        (reg.gst_element_factory_list_get_elements type rank) caps direction subsetonly =
          pre ++ some f :: post →
      (∀ e ∈ pre, ∀ b, e = some b → b.static_pad_templates.length ≠ 2) →
      acceptable (some f) = true →
      kms_utils_get_element_for_caps reg type rank caps direction subsetonly name =
        { elem := reg.gst_element_factory_create f name, created := [(f, name)] }) := by
  have key : ∀ f inst, (f, inst) ∈
      (kms_utils_get_element_for_caps reg type rank caps direction subsetonly name).created →
      f.static_pad_templates.length = 2 := by
    intro f inst hf
    rcases first_acceptable_split (reg.gst_element_factory_list_filter
      (reg.gst_element_factory_list_get_elements type rank) caps direction subsetonly) with
      h | ⟨pre, f', post, e1, e2, e3⟩
    · rw [select_of_none reg type rank caps direction subsetonly name h] at hf
      simp at hf
    · rw [select_of_first reg type rank caps direction subsetonly name pre post f' e1 e3 e2] at hf
      simp only [List.mem_singleton, Prod.mk.injEq] at hf
      rw [hf.1]
      exact acceptable_length f' e2
  refine ⟨key, fun f inst hne hmem => hne (key f inst hmem), ?_⟩
  intro pre f post hl hpre hf
  refine select_of_first reg type rank caps direction subsetonly name pre post f hl ?_ hf
  intro e he
  cases e with
  | none => rfl
  | some b => exact not_acceptable_of_length b (hpre _ he b rfl)

/-- Witness for C5: a one-template and a three-template factory, canonically
named and first in the list, are passed over and the rank-1 factory behind
them is selected. -/
theorem exactly_two_ports_filter_witness :
    kms_utils_get_element_for_caps
        (example_registry [some factory_one_pad, some factory_three_pads, some factory_rank1])
        0 0 [] .GST_PAD_SINK false (some "conv") =
      { elem := some { name := "conv", pads := [("sink", 1), ("src", 2)] },
        created := [(factory_rank1, some "conv")] } :=
  (exactly_two_ports_filter
    (example_registry [some factory_one_pad, some factory_three_pads, some factory_rank1])
    0 0 [] .GST_PAD_SINK false (some "conv")).2.2
    [some factory_one_pad, some factory_three_pads] factory_rank1 [] rfl
    (by
      intro e he b hb
      simp only [List.mem_cons, List.mem_singleton, List.not_mem_nil, or_false] at he
      rcases he with rfl | rfl
      · cases hb; decide
      · cases hb; decide)
    (by decide)

/-- C6: when no entry of the filtered list is acceptable (in particular when the
list is empty) `kms_utils_get_element_for_caps` returns `NULL` and calls
`gst_element_factory_create` on no factory; when some entry is acceptable, the
result is what `gst_element_factory_create` gives for the first acceptable
factory and the caller's instance name, and that is the only creation. -/
theorem search_failure (reg : GstRegistry) (type rank : Nat) (caps : GstCaps)
    (direction : GstPadDirection) (subsetonly : Bool) (name : Option String) :
    ((∀ e ∈ reg.gst_element_factory_list_filter
        (reg.gst_element_factory_list_get_elements type rank) caps direction subsetonly,
          acceptable e = false) →
      kms_utils_get_element_for_caps reg type rank caps direction subsetonly name =
        { elem := none, created := [] }) ∧
    (reg.gst_element_factory_list_filter
        (reg.gst_element_factory_list_get_elements type rank) caps direction subsetonly = [] →
      kms_utils_get_element_for_caps reg type rank caps direction subsetonly name =
        { elem := none, created := [] }) ∧
    ((∃ e ∈ reg.gst_element_factory_list_filter
        (reg.gst_element_factory_list_get_elements type rank) caps direction subsetonly,
          acceptable e = true) →
      ∃ pre f post,
        reg.gst_element_factory_list_filter
          (reg.gst_element_factory_list_get_elements type rank) caps direction subsetonly =
            pre ++ some f :: post ∧
        acceptable (some f) = true ∧ (∀ e ∈ pre, acceptable e = false) ∧
        kms_utils_get_element_for_caps reg type rank caps direction subsetonly name =
          { elem := reg.gst_element_factory_create f name, created := [(f, name)] }) := by
  refine ⟨select_of_none reg type rank caps direction subsetonly name, ?_, ?_⟩
  · intro hl
    exact select_of_none reg type rank caps direction subsetonly name (by simp [hl])
  · rintro ⟨e, he, hacc⟩
    rcases first_acceptable_split (reg.gst_element_factory_list_filter
      (reg.gst_element_factory_list_get_elements type rank) caps direction subsetonly) with
      h | ⟨pre, f, post, e1, e2, e3⟩
    · rw [h e he] at hacc
      exact absurd hacc (by decide)
    · exact ⟨pre, f, post, e1, e2, e3,
        select_of_first reg type rank caps direction subsetonly name pre post f e1 e3 e2⟩

/-- Witness for C6: a list without acceptable entry gives `NULL` and no
creation; the same list followed by the rank-2 factory gives an acceptable
first match. -/
theorem search_failure_witness :
    kms_utils_get_element_for_caps
        (example_registry [some factory_one_pad, none, some factory_odd_names])
        0 0 [] .GST_PAD_SINK false (some "conv") = { elem := none, created := [] } ∧
    ∃ pre f post,
      [some factory_one_pad, none, some factory_odd_names, some factory_rank2] =
        pre ++ some f :: post ∧
      acceptable (some f) = true ∧ (∀ e ∈ pre, acceptable e = false) ∧
      kms_utils_get_element_for_caps
          (example_registry [some factory_one_pad, none, some factory_odd_names,
            some factory_rank2])
          0 0 [] .GST_PAD_SINK false (some "conv") =
        { elem := some { name := "conv", pads := [("sink", 1), ("src", 2)] },
          created := [(f, some "conv")] } :=
  ⟨(search_failure (example_registry [some factory_one_pad, none, some factory_odd_names])
      0 0 [] .GST_PAD_SINK false (some "conv")).1
      (by
        intro e he
        simp only [example_registry, List.mem_cons, List.mem_singleton, List.not_mem_nil,
          or_false] at he
        rcases he with rfl | rfl | rfl
        · decide
        · decide
        · exact acceptable_odd_names),
   (search_failure
      (example_registry [some factory_one_pad, none, some factory_odd_names, some factory_rank2])
      0 0 [] .GST_PAD_SINK false (some "conv")).2.2
      ⟨some factory_rank2, by simp [example_registry], by decide⟩⟩

/-! ## Lemmas on pad links and signal emission -/

theorem same_frame_refl (g : GstGraph) : same_frame g g := ⟨rfl, rfl, rfl, rfl⟩

theorem same_frame_trans {g h k : GstGraph} (a : same_frame g h) (b : same_frame h k) :
    same_frame g k :=
  ⟨b.1.trans a.1, b.2.1.trans a.2.1, b.2.2.1.trans a.2.2.1, b.2.2.2.trans a.2.2.2⟩

theorem gst_pad_is_linked_false_iff (g : GstGraph) (p : GstPad) :
    gst_pad_is_linked g (some p) = false ↔ ∀ l ∈ g.links, l.1 ≠ p ∧ l.2 ≠ p := by
  simp only [gst_pad_is_linked, gst_pad_get_peer, Option.isSome_map']
  rw [← Bool.not_eq_true, Option.isSome_iff_exists]
  constructor
  · intro h l hl
    by_contra hc
    have hp : l.1 = p ∨ l.2 = p := by
      by_contra hn
      exact hc ⟨fun e => hn (Or.inl e), fun e => hn (Or.inr e)⟩
    have : (g.links.find? (fun l => decide (l.1 = p ∨ l.2 = p))).isSome = true := by
      rw [List.find?_isSome]
      exact ⟨l, hl, by simpa using hp⟩
    exact h (Option.isSome_iff_exists.1 this)
  · rintro h ⟨l, hl⟩
    have hm := List.mem_of_find?_eq_some hl
    have hp := List.find?_some hl
    simp only [decide_eq_true_eq] at hp
    rcases hp with e | e
    · exact (h l hm).1 e
    · exact (h l hm).2 e

/-- In a well-linked graph the peer of a linked sink pad is the src end of its
link. -/
theorem peer_of_sink_pad (g : GstGraph) (s p : GstPad) (hwf : well_linked g)
    (hdir : g.direction s = .GST_PAD_SINK) (hp : gst_pad_get_peer g (some s) = some p) :
    (p, s) ∈ g.links ∧ g.direction p = .GST_PAD_SRC := by
  simp only [gst_pad_get_peer, Option.map_eq_some'] at hp
  obtain ⟨l, hl, he⟩ := hp
  have hm := List.mem_of_find?_eq_some hl
  have hc := List.find?_some hl
  simp only [decide_eq_true_eq] at hc
  have hd := hwf.1 l hm
  have h1 : l.1 ≠ s := by
    intro e
    rw [e, hdir] at hd
    exact absurd hd.1 (by decide)
  have h2 : l.2 = s := by
    rcases hc with e | e
    · exact absurd e h1
    · exact e
  rw [if_neg h1] at he
  subst he
  subst h2
  exact ⟨hm, hd.1⟩

/-- Once the link of a sink pad is removed from a well-linked graph, no link
involves that pad. -/
theorem sink_free_after_filter (g : GstGraph) (s p : GstPad) (hwf : well_linked g)
    (hdir : g.direction s = .GST_PAD_SINK) (hl : (p, s) ∈ g.links) :
    ∀ l ∈ g.links.filter (fun l => l ≠ (p, s)), l.1 ≠ s ∧ l.2 ≠ s := by
  intro l hm
  rw [List.mem_filter] at hm
  obtain ⟨hm, hne⟩ := hm
  simp only [ne_eq, decide_not, Bool.not_eq_true', decide_eq_false_iff_not] at hne
  constructor
  · intro e
    have hd := (hwf.1 l hm).1
    rw [e, hdir] at hd
    exact absurd hd (by decide)
  · intro e
    exact hne (hwf.2 l hm (p, s) hl (Or.inr e))

theorem g_signal_emit_no_connection (fuel : Nat) (g : GstGraph) (pad peer : GstPad)
    (signal : PadSignal)
    (h : ∀ c ∈ g.connections, ¬ (c.pad = pad ∧ c.signal = signal)) :
    g_signal_emit (fuel + 1) g pad signal peer = some g := by
  have hnil : g.connections.filter (fun c => decide (c.pad = pad ∧ c.signal = signal)) = [] := by
    rw [List.filter_eq_nil_iff]
    intro c hc
    simpa using h c hc
  simp only [g_signal_emit, hnil, run_connections]

theorem run_connections_idle (emit : Emitter) (g : GstGraph) (pad peer : GstPad)
    (cs : List SignalConnection) (h : ∀ c ∈ cs, run_callback emit g pad peer c = some g) :
    run_connections emit g pad peer cs = some g := by
  induction cs with
  | nil => rfl
  | cons c cs ih =>
    simp only [run_connections, h c (List.mem_cons_self _ _), Option.some_bind]
    exact ih (fun c hc => h c (List.mem_cons_of_mem _ hc))

theorem run_connections_append (emit : Emitter) (g : GstGraph) (pad peer : GstPad)
    (cs ds : List SignalConnection) :
    run_connections emit g pad peer (cs ++ ds) =
      (run_connections emit g pad peer cs).bind (fun h => run_connections emit h pad peer ds) := by
  induction cs generalizing g with
  | nil => rfl
  | cons c cs ih =>
    simp only [List.cons_append, run_connections]
    cases run_callback emit g pad peer c with
    | none => rfl
    | some h =>
      simp only [Option.some_bind]
      exact ih h

theorem kms_dynamic_connection_eq (g : GstGraph) (orig dest : GstElement)
    (pad_name : String) (pad : GstPad)
    (hpad : gst_element_get_static_pad (some dest) pad_name = some pad) :
    kms_dynamic_connection g orig dest pad_name =
      { g with connections := g.connections ++
          [{ pad := pad, signal := .linked, data := orig },
           { pad := pad, signal := .unlinked, data := orig }] } := by
  simp [kms_dynamic_connection, hpad, g_object_connect]

theorem length_filter_lt_of_mem {α : Type} (p : α → Bool) (l : List α) (a : α) (ha : a ∈ l)
    (hp : p a = false) : (l.filter p).length < l.length := by
  induction l with
  | nil => simp at ha
  | cons b l ih =>
    rcases List.mem_cons.1 ha with rfl | h
    · simp only [List.filter_cons, hp, Bool.false_eq_true, if_false, List.length_cons]
      exact Nat.lt_succ_of_le (List.length_filter_le _ _)
    · have := ih h
      simp only [List.filter_cons, List.length_cons]
      split_ifs
      · simp only [List.length_cons]
        omega
      · omega

/-! ## The cascade of `unlinked` emissions -/

theorem unlink_outcome_trans {g h : GstGraph} {r : Option GstGraph}
    (a : same_frame g h) (b : h.links.Sublist g.links) (c : unlink_outcome h r) :
    unlink_outcome g r := by
  obtain ⟨k, e, f, s⟩ := c
  exact ⟨k, e, same_frame_trans a f, s.trans b⟩

theorem gst_pad_unlink_outcome (fuel : Nat)
    (ih : ∀ g pad peer, g.links.length < fuel →
      unlink_outcome g (g_signal_emit fuel g pad .unlinked peer))
    (g : GstGraph) (srcpad : GstPad) (sinkpad : Option GstPad)
    (hlen : g.links.length < fuel + 1) :
    unlink_outcome g (gst_pad_unlink (g_signal_emit fuel) g srcpad sinkpad) := by
  cases sinkpad with
  | none => exact ⟨g, rfl, same_frame_refl g, List.Sublist.refl _⟩
  | some s =>
    simp only [gst_pad_unlink]
    split_ifs with hc
    · have hlt : (g.links.filter (fun l => decide (l ≠ (srcpad, s)))).length < g.links.length :=
        length_filter_lt_of_mem _ _ (srcpad, s) hc.2.2 (by simp)
      have hsub : (g.links.filter (fun l => decide (l ≠ (srcpad, s)))).Sublist g.links :=
        List.filter_sublist _
      obtain ⟨h1, e1, f1, s1⟩ := ih
        { g with links := g.links.filter (fun l => decide (l ≠ (srcpad, s))) } srcpad s
        (by simp only; omega)
      rw [e1, Option.some_bind]
      have hl1 : h1.links.length < fuel := by
        have := s1.length_le
        simp only at this
        omega
      obtain ⟨h2, e2, f2, s2⟩ := ih h1 s srcpad hl1
      refine ⟨h2, e2, same_frame_trans ?_ f2, (s2.trans s1).trans hsub⟩
      exact ⟨f1.1, f1.2.1, f1.2.2.1, f1.2.2.2⟩
    · exact ⟨g, rfl, same_frame_refl g, List.Sublist.refl _⟩

theorem unlinked_outcome (fuel : Nat)
    (ih : ∀ g pad peer, g.links.length < fuel →
      unlink_outcome g (g_signal_emit fuel g pad .unlinked peer))
    (g : GstGraph) (pad : GstPad) (orig : GstElement) (hlen : g.links.length < fuel + 1) :
    unlink_outcome g (unlinked (g_signal_emit fuel) g pad orig) := by
  simp only [unlinked]
  split_ifs
  · split
    · exact gst_pad_unlink_outcome fuel ih g _ _ hlen
    · exact ⟨g, rfl, same_frame_refl g, List.Sublist.refl _⟩
  · exact ⟨g, rfl, same_frame_refl g, List.Sublist.refl _⟩

theorem run_connections_unlink_outcome (fuel : Nat)
    (ih : ∀ g pad peer, g.links.length < fuel →
      unlink_outcome g (g_signal_emit fuel g pad .unlinked peer))
    (pad peer : GstPad) (cs : List SignalConnection) (hcs : ∀ c ∈ cs, c.signal = .unlinked)
    (g : GstGraph) (hlen : g.links.length < fuel + 1) :
    unlink_outcome g (run_connections (g_signal_emit fuel) g pad peer cs) := by
  induction cs generalizing g with
  | nil => exact ⟨g, rfl, same_frame_refl g, List.Sublist.refl _⟩
  | cons c cs ihc =>
    have hc : c.signal = .unlinked := hcs c (List.mem_cons_self _ _)
    obtain ⟨h1, e1, f1, s1⟩ := unlinked_outcome fuel ih g pad c.data hlen
    simp only [run_connections, run_callback, hc, e1, Option.some_bind]
    have hl1 : h1.links.length < fuel + 1 := by
      have := s1.length_le
      omega
    exact unlink_outcome_trans f1 s1
      (ihc (fun c hc => hcs c (List.mem_cons_of_mem _ hc)) h1 hl1)

/-- With more fuel than there are pad links, an emission of `unlinked` returns;
it only removes pad links. -/
theorem unlink_cascade (fuel : Nat) (g : GstGraph) (pad peer : GstPad)
    (hlen : g.links.length < fuel) :
    unlink_outcome g (g_signal_emit fuel g pad .unlinked peer) := by
  induction fuel generalizing g pad peer with
  | zero => omega
  | succ fuel ih =>
    simp only [g_signal_emit]
    refine run_connections_unlink_outcome fuel ih pad peer _ ?_ g hlen
    intro c hc
    have := (List.mem_filter.1 hc).2
    simp only [decide_eq_true_eq] at this
    exact this.2

theorem well_linked_of_subset (g h : GstGraph) (hwf : well_linked g)
    (hsub : ∀ l ∈ h.links, l ∈ g.links) (hdir : h.direction = g.direction) : well_linked h := by
  refine ⟨?_, ?_⟩
  · intro l hl
    rw [hdir]
    exact hwf.1 l (hsub l hl)
  · intro l hl m hm
    exact hwf.2 l (hsub l hl) m (hsub m hm)

theorem unlinked_idle (emit : Emitter) (g : GstGraph) (pad s : GstPad) (orig dest : GstElement)
    (hown : gst_pad_get_parent_element g pad = some dest)
    (hsink : gst_element_get_static_pad (some dest) "sink" = some s)
    (hfree : gst_pad_is_linked g (some s) = false) :
    unlinked emit g pad orig = some g := by
  simp [unlinked, hown, hsink, hfree]

/-- The emission of `unlinked` on a pad of `dest` that carries at least one
`unlinked` connection, in a well-linked graph where `dest` has a sink pad `s`
named "sink". -/
theorem unlinked_emission (g : GstGraph) (dest : GstElement) (pad s peer : GstPad) (n : Nat)
    (hwf : well_linked g)
    (hown : gst_pad_get_parent_element g pad = some dest)
    (hsink : gst_element_get_static_pad (some dest) "sink" = some s)
    (hdir : g.direction s = .GST_PAD_SINK)
    (hn : g.links.length + 1 ≤ n)
    (hex : ∃ c ∈ g.connections, c.pad = pad ∧ c.signal = .unlinked) :
    ∃ h, g_signal_emit (n + 1) g pad .unlinked peer = some h ∧
      gst_pad_is_linked h (some s) = false ∧
      (gst_pad_is_linked g (some s) = false → h = g) ∧
      (∀ l ∈ h.links, l ∈ g.links) ∧
      ((∀ c ∈ g.connections, c.signal = .unlinked →
          c.pad ≠ s ∧ gst_pad_get_peer g (some s) ≠ some c.pad) →
        ∀ l ∈ g.links, l.2 ≠ s → l ∈ h.links) ∧
      same_frame g h := by
  -- the handlers that run
  obtain ⟨c0, hc0, hc0p⟩ := hex
  have hmem0 : c0 ∈ g.connections.filter (fun c => decide (c.pad = pad ∧ c.signal = .unlinked)) :=
    List.mem_filter.2 ⟨hc0, by simpa using hc0p⟩
  have hsig : ∀ c ∈ g.connections.filter (fun c => decide (c.pad = pad ∧ c.signal = .unlinked)),
      c.signal = .unlinked := by
    intro c hc
    have := (List.mem_filter.1 hc).2
    simp only [decide_eq_true_eq] at this
    exact this.2
  simp only [g_signal_emit]
  generalize g.connections.filter (fun c => decide (c.pad = pad ∧ c.signal = .unlinked)) = cs
    at hmem0 hsig
  by_cases hl : gst_pad_is_linked g (some s) = false
  · -- the sink pad is not linked: every handler leaves the graph alone
    refine ⟨g, ?_, hl, fun _ => rfl, fun l h => h, fun _ l h _ => h, same_frame_refl g⟩
    apply run_connections_idle
    intro c hc
    simp only [run_callback, hsig c hc]
    exact unlinked_idle _ g pad s c.data dest hown hsink hl
  · -- the sink pad is linked: the first handler unlinks it
    have hl2 : gst_pad_is_linked g (some s) = true := by simpa using hl
    obtain ⟨p, hp⟩ : ∃ p, gst_pad_get_peer g (some s) = some p :=
      Option.isSome_iff_exists.1 hl2
    obtain ⟨hlink, hpdir⟩ := peer_of_sink_pad g s p hwf hdir hp
    cases cs with
    | nil => simp at hmem0
    | cons c cs =>
      have hc : c.signal = .unlinked := hsig c (List.mem_cons_self _ _)
      have hlt : (g.links.filter (fun l => decide (l ≠ (p, s)))).length < g.links.length :=
        length_filter_lt_of_mem _ _ (p, s) hlink (by simp)
      obtain ⟨h1, e1, f1, s1⟩ := unlink_cascade n
        { g with links := g.links.filter (fun l => decide (l ≠ (p, s))) } p s
        (by simp only; omega)
      have hl1 : h1.links.length < n := by
        have := s1.length_le
        simp only at this
        omega
      obtain ⟨h2, e2, f2, s2⟩ := unlink_cascade n h1 s p hl1
      have hfirst : unlinked (g_signal_emit n) g pad c.data = some h2 := by
        simp only [unlinked, hown, hsink, hl2, if_true, hp, gst_pad_unlink, hpdir, hdir, hlink,
          and_self, e1, Option.some_bind, e2]
      have hsub2 : ∀ l ∈ h2.links, l ∈ g.links.filter (fun l => decide (l ≠ (p, s))) :=
        fun l hl => (s2.trans s1).subset hl
      have hfree2 : gst_pad_is_linked h2 (some s) = false := by
        rw [gst_pad_is_linked_false_iff]
        intro l hl
        exact sink_free_after_filter g s p hwf hdir hlink l (hsub2 l hl)
      have hframe : same_frame g h2 :=
        same_frame_trans (g := g) (h := h1) ⟨f1.1, f1.2.1, f1.2.2.1, f1.2.2.2⟩ f2
      have hown2 : gst_pad_get_parent_element h2 pad = some dest := by
        simp only [gst_pad_get_parent_element, hframe.1]
        exact hown
      refine ⟨h2, ?_, hfree2, fun h => absurd h hl, ?_, ?_, hframe⟩
      · simp only [run_connections, run_callback, hc, hfirst, Option.some_bind]
        apply run_connections_idle
        intro d hd
        simp only [run_callback, hsig d (List.mem_cons_of_mem _ hd)]
        exact unlinked_idle _ h2 pad s d.data dest hown2 hsink hfree2
      · intro l hl
        exact (List.mem_filter.1 (hsub2 l hl)).1
      · intro hno l hl hls
        obtain ⟨m, rfl⟩ : ∃ m, n = m + 1 := ⟨n - 1, by omega⟩
        have q1 : g_signal_emit (m + 1)
            { g with links := g.links.filter (fun l => decide (l ≠ (p, s))) } p .unlinked s =
            some { g with links := g.links.filter (fun l => decide (l ≠ (p, s))) } := by
          apply g_signal_emit_no_connection
          rintro d hd ⟨hdp, hds⟩
          exact (hno d hd hds).2 (by rw [hp, hdp])
        rw [q1] at e1
        cases e1
        have q2 : g_signal_emit (m + 1)
            { g with links := g.links.filter (fun l => decide (l ≠ (p, s))) } s .unlinked p =
            some { g with links := g.links.filter (fun l => decide (l ≠ (p, s))) } := by
          apply g_signal_emit_no_connection
          rintro d hd ⟨hdp, hds⟩
          exact (hno d hd hds).1 hdp
        rw [q2] at e2
        cases e2
        simp only
        rw [List.mem_filter]
        refine ⟨hl, ?_⟩
        simp only [ne_eq, decide_not, Bool.not_eq_true', decide_eq_false_iff_not]
        intro e
        exact hls (by rw [e])

/-! ## The cascade of `linked` emissions -/

theorem length_filter_le_of_imp {α : Type} (p q : α → Bool) (l : List α)
    (h : ∀ x, q x = true → p x = true) : (l.filter q).length ≤ (l.filter p).length := by
  induction l with
  | nil => simp
  | cons b l ih =>
    cases hq : q b <;> cases hp : p b
    · simpa [List.filter_cons, hq, hp] using ih
    · simp only [List.filter_cons, hq, hp, if_true, Bool.false_eq_true, if_false,
        List.length_cons]
      omega
    · have := h b hq
      rw [hp] at this
      exact absurd this (by decide)
    · simpa [List.filter_cons, hq, hp] using ih

theorem length_filter_lt_of_imp {α : Type} (p q : α → Bool) (l : List α) (a : α)
    (h : ∀ x, q x = true → p x = true) (ha : a ∈ l) (hp : p a = true) (hq : q a = false) :
    (l.filter q).length < (l.filter p).length := by
  induction l with
  | nil => simp at ha
  | cons b l ih =>
    have hle := length_filter_le_of_imp p q l h
    rcases List.mem_cons.1 ha with rfl | hm
    · simp only [List.filter_cons, hp, hq, if_true, Bool.false_eq_true, if_false,
        List.length_cons]
      omega
    · have hlt := ih hm
      cases hqb : q b <;> cases hpb : p b
      · simpa [List.filter_cons, hqb, hpb] using hlt
      · simp only [List.filter_cons, hqb, hpb, if_true, Bool.false_eq_true, if_false,
          List.length_cons]
        omega
      · have := h b hqb
        rw [hpb] at this
        exact absurd this (by decide)
      · simpa [List.filter_cons, hqb, hpb] using hlt

theorem free_of_free_later (g h : GstGraph) (extra : List (GstPad × GstPad))
    (hl : h.links = g.links ++ extra) (x : GstPad)
    (hx : gst_pad_is_linked h (some x) = false) : gst_pad_is_linked g (some x) = false := by
  rw [gst_pad_is_linked_false_iff] at hx ⊢
  intro l hm
  exact hx l (by rw [hl]; exact List.mem_append_left _ hm)

theorem link_measure_le (g h : GstGraph) (hf : same_frame g h)
    (hl : ∃ extra, h.links = g.links ++ extra) : link_measure h ≤ link_measure g := by
  obtain ⟨extra, hl⟩ := hl
  simp only [link_measure, origin_pads, hf.2.2.2]
  apply length_filter_le_of_imp
  intro x hx
  simp only [decide_eq_true_eq] at hx ⊢
  exact free_of_free_later g h extra hl x hx

theorem link_measure_lt (g h : GstGraph) (a b : GstPad) (hf : same_frame g h)
    (hl : h.links = g.links ++ [(a, b)]) (ha : a ∈ origin_pads g)
    (hfree : gst_pad_is_linked g (some a) = false) : link_measure h < link_measure g := by
  simp only [link_measure]
  have ho : origin_pads h = origin_pads g := by simp only [origin_pads, hf.2.2.2]
  rw [ho]
  apply length_filter_lt_of_imp _ _ _ a
  · intro x hx
    simp only [decide_eq_true_eq] at hx ⊢
    exact free_of_free_later g h _ hl x hx
  · exact ha
  · simpa using hfree
  · simp only [decide_eq_false_iff_not]
    rw [gst_pad_is_linked_false_iff]
    intro hc
    exact (hc (a, b) (by rw [hl]; simp)).1 rfl

theorem link_outcome_refl (g : GstGraph) : link_outcome g (some g) :=
  ⟨g, rfl, same_frame_refl g, [], by simp⟩

theorem link_outcome_trans {g h : GstGraph} {r : Option GstGraph}
    (a : same_frame g h) (b : ∃ extra, h.links = g.links ++ extra) (c : link_outcome h r) :
    link_outcome g r := by
  obtain ⟨k, e, f, x, hx⟩ := c
  obtain ⟨y, hy⟩ := b
  exact ⟨k, e, same_frame_trans a f, y ++ x, by rw [hx, hy, List.append_assoc]⟩

theorem gst_element_get_compatible_pad_some (g : GstGraph) (dest : GstElement) (a b : GstPad)
    (h : gst_element_get_compatible_pad g dest a = some b) :
    b ∈ dest.pads.map (fun p => p.2) ∧ g.direction b = .GST_PAD_SINK ∧
      gst_pad_is_linked g (some b) = false ∧ g.compatible a b = true := by
  simp only [gst_element_get_compatible_pad, Option.map_eq_some'] at h
  obtain ⟨q, hq, rfl⟩ := h
  have hm := List.mem_of_find?_eq_some hq
  have hc := List.find?_some hq
  simp only [decide_eq_true_eq] at hc
  exact ⟨List.mem_map.2 ⟨q, hm, rfl⟩, hc.1, hc.2.1, hc.2.2⟩

/-- The pads chosen by `find_link_pads`: an unlinked src pad of `src` and an
unlinked sink pad of `dest` with compatible caps. -/
theorem find_link_pads_some (g : GstGraph) (src dest : GstElement) (a b : GstPad)
    (h : find_link_pads g src dest = some (a, b)) :
    a ∈ src.pads.map (fun p => p.2) ∧ g.direction a = .GST_PAD_SRC ∧
      gst_pad_is_linked g (some a) = false ∧
      b ∈ dest.pads.map (fun p => p.2) ∧ g.direction b = .GST_PAD_SINK ∧
      gst_pad_is_linked g (some b) = false ∧ g.compatible a b = true := by
  obtain ⟨p, hp, hf⟩ := List.exists_of_findSome?_eq_some h
  split_ifs at hf with hc
  simp only [Option.map_eq_some', Prod.mk.injEq] at hf
  obtain ⟨q, hq, rfl, rfl⟩ := hf
  obtain ⟨h1, h2, h3, h4⟩ := gst_element_get_compatible_pad_some g dest p.2 q hq
  exact ⟨List.mem_map.2 ⟨p, hp, rfl⟩, hc.1, hc.2, h1, h2, h3, h4⟩

theorem gst_pad_link_outcome (fuel : Nat)
    (ih : ∀ g pad peer, link_measure g < fuel →
      link_outcome g (g_signal_emit fuel g pad .linked peer))
    (g : GstGraph) (a b : GstPad) (ha : a ∈ origin_pads g) (hm : link_measure g < fuel + 1) :
    link_outcome g (gst_pad_link (g_signal_emit fuel) g a b) := by
  simp only [gst_pad_link]
  split_ifs with hc
  · have f0 : same_frame g { g with links := g.links ++ [(a, b)] } := ⟨rfl, rfl, rfl, rfl⟩
    have m0 : link_measure { g with links := g.links ++ [(a, b)] } < link_measure g :=
      link_measure_lt g _ a b f0 rfl ha hc.2.2.1
    obtain ⟨h1, e1, f1, x1⟩ := ih { g with links := g.links ++ [(a, b)] } a b (by omega)
    rw [e1, Option.some_bind]
    have m1 := link_measure_le _ h1 f1 x1
    have r2 := ih h1 b a (by omega)
    exact link_outcome_trans f0 ⟨[(a, b)], rfl⟩ (link_outcome_trans f1 x1 r2)
  · exact link_outcome_refl g

theorem gst_element_link_outcome (fuel : Nat)
    (ih : ∀ g pad peer, link_measure g < fuel →
      link_outcome g (g_signal_emit fuel g pad .linked peer))
    (g : GstGraph) (src : GstElement) (dest : Option GstElement)
    (hsrc : ∀ p ∈ src.pads, p.2 ∈ origin_pads g) (hm : link_measure g < fuel + 1) :
    link_outcome g (gst_element_link (g_signal_emit fuel) g src dest) := by
  cases dest with
  | none => exact link_outcome_refl g
  | some d =>
    simp only [gst_element_link]
    cases hf : find_link_pads g src d with
    | none => exact link_outcome_refl g
    | some ab =>
      obtain ⟨a, b⟩ := ab
      simp only
      have ha := (find_link_pads_some g src d a b hf).1
      obtain ⟨p, hp, rfl⟩ := List.mem_map.1 ha
      exact gst_pad_link_outcome fuel ih g p.2 b (hsrc p hp) hm

theorem origin_pads_of_connection (g : GstGraph) (c : SignalConnection)
    (hc : c ∈ g.connections) : ∀ p ∈ c.data.pads, p.2 ∈ origin_pads g := by
  intro p hp
  simp only [origin_pads, List.mem_flatMap, List.mem_map]
  exact ⟨c, hc, p, hp, rfl⟩

theorem run_connections_link_outcome (fuel : Nat)
    (ih : ∀ g pad peer, link_measure g < fuel →
      link_outcome g (g_signal_emit fuel g pad .linked peer))
    (pad peer : GstPad) (cs : List SignalConnection) (g : GstGraph)
    (hcs : ∀ c ∈ cs, c ∈ g.connections ∧ c.signal = .linked)
    (hm : link_measure g < fuel + 1) :
    link_outcome g (run_connections (g_signal_emit fuel) g pad peer cs) := by
  induction cs generalizing g with
  | nil => exact link_outcome_refl g
  | cons c cs ihc =>
    obtain ⟨hc, hsig⟩ := hcs c (List.mem_cons_self _ _)
    obtain ⟨h1, e1, f1, x1⟩ := gst_element_link_outcome fuel ih g c.data
      (gst_pad_get_parent_element g pad) (origin_pads_of_connection g c hc) hm
    simp only [run_connections, run_callback, hsig, linked, e1, Option.some_bind]
    have m1 := link_measure_le g h1 f1 x1
    refine link_outcome_trans f1 x1 (ihc h1 ?_ (by omega))
    intro d hd
    obtain ⟨hdc, hds⟩ := hcs d (List.mem_cons_of_mem _ hd)
    exact ⟨by rw [f1.2.2.2]; exact hdc, hds⟩

/-- With more fuel than there are unlinked origin pads, an emission of `linked`
returns; it only adds pad links. -/
theorem link_cascade (fuel : Nat) (g : GstGraph) (pad peer : GstPad)
    (hm : link_measure g < fuel) :
    link_outcome g (g_signal_emit fuel g pad .linked peer) := by
  induction fuel generalizing g pad peer with
  | zero => omega
  | succ fuel ih =>
    simp only [g_signal_emit]
    refine run_connections_link_outcome fuel ih pad peer _ g ?_ hm
    intro c hc
    have h := List.mem_filter.1 hc
    have h2 := h.2
    simp only [decide_eq_true_eq] at h2
    exact ⟨h.1, h2.2⟩

/-! ## Claims on `kms_dynamic_connection` and its handlers -/

/-- C9 (the code at the failing input): `source` has no static pad named
"sink"; `kms_generate_bin_with_caps` does not fail on it but returns a bin
whose "sink" ghost pad has no target, having called `g_object_unref` on the
`NULL` pad pointer, which GLib answers with a critical. -/
theorem generate_bin_missing_pad :
    gst_element_get_static_pad (some elem_source) "sink" = none ∧
    kms_generate_bin_with_caps elem_source ["video/x-raw"] ["video/x-h264"] =
      { bin := some { name := "source", children := [elem_source],
                      pads := [{ name := "sink",
                                 template := { name_template := some "sink",
                                               direction := .GST_PAD_SINK,
                                               presence := .GST_PAD_ALWAYS,
                                               caps := ["video/x-raw"] },
                                 target := none },
                               { name := "src",
                                 template := { name_template := some "src",
                                               direction := .GST_PAD_SRC,
                                               presence := .GST_PAD_ALWAYS,
                                               caps := ["video/x-h264"] },
                                 target := some 60 }] },
        criticals := ["g_object_unref: assertion G_IS_OBJECT (object) failed"] } := by
  decide

/-! ## Claims on `kms_init` -/

theorem kms_init_initialized (q : KmsProcess) (hi : q.init = true) (hm : q.mutex = false) :
    kms_init q = some q := by
  obtain ⟨pipe, mutex, init, pipelines, threads, a, b⟩ := q
  simp only at hi hm
  subst hi hm
  simp [kms_init]

theorem kms_init_times_initialized (n : Nat) (q : KmsProcess) (hi : q.init = true)
    (hm : q.mutex = false) : kms_init_times n q = some q := by
  induction n with
  | zero => rfl
  | succ n ih => simp [kms_init_times, kms_init_initialized q hi hm, ih]

/-- C10: for every N >= 1, N calls of `kms_init` in a row from the
uninitialized state all return, and leave the state reached by the first
call: one pipeline created (in state PLAYING), one thread spawned (running
`gstreamer_thread`), the init flag set, `kms_get_pipeline` returning the
pipeline created by the first call; one more call leaves that state unchanged. -/
theorem kms_init_idempotent (N : Nat) (hN : 1 ≤ N) :
    ∃ p, kms_init_times N KmsProcess.start = some p ∧
      kms_init KmsProcess.start = some p ∧
      p.pipelines = [{ state := .GST_STATE_PLAYING,
                       bus_watches := ["gst_bus_async_signal_func"],
                       bus_handlers := ["bus_msg"] }] ∧
      p.threads = ["gstreamer_thread"] ∧
      p.init = true ∧
      kms_get_pipeline p = some (gst_pipeline_new KmsProcess.start).2 ∧
      kms_init p = some p ∧
      kms_init_times (N + 1) KmsProcess.start = kms_init_times N KmsProcess.start := by
  obtain ⟨n, rfl⟩ : ∃ n, N = n + 1 := ⟨N - 1, by omega⟩
  have h1 : kms_init KmsProcess.start =
      some { pipe := some 0, mutex := false, init := true,
             pipelines := [{ state := .GST_STATE_PLAYING,
                             bus_watches := ["gst_bus_async_signal_func"],
                             bus_handlers := ["bus_msg"] }],
             threads := ["gstreamer_thread"], g_type_init_calls := 1, gst_init_calls := 1 } := by
    decide
  refine ⟨_, ?_, h1, rfl, rfl, rfl, rfl, kms_init_initialized _ rfl rfl, ?_⟩
  · simp [kms_init_times, h1, kms_init_times_initialized]
  · simp [kms_init_times, h1, kms_init_times_initialized, kms_init_initialized]

/-- Witness for C10, at N = 3. -/
theorem kms_init_idempotent_witness :
    ∃ p, kms_init_times 3 KmsProcess.start = some p ∧
      kms_init KmsProcess.start = some p ∧
      p.pipelines = [{ state := .GST_STATE_PLAYING,
                       bus_watches := ["gst_bus_async_signal_func"],
                       bus_handlers := ["bus_msg"] }] ∧
      p.threads = ["gstreamer_thread"] ∧
      p.init = true ∧
      kms_get_pipeline p = some (gst_pipeline_new KmsProcess.start).2 ∧
      kms_init p = some p ∧
      kms_init_times (3 + 1) KmsProcess.start = kms_init_times 3 KmsProcess.start :=
  kms_init_idempotent 3 (by decide)

end Kms
